import Mathlib

/-!
Verification of the Windows virtual-memory / page-fault glue of XBSX2
(src/unnamed/part_002): page protection mapping, reserve/commit/protect
primitives, the page-fault exception filters, and the UWP JIT unwind-handler
registry.  Platform primitives (VirtualAlloc, VirtualProtectFromApp, ...) are
modelled as oracles supplied through environment records, so that every
control-flow branch of the source is represented by a branch on the oracle.
-/

namespace XBSX2

/-! ## Page protection values -/

/-- Windows page-protection constants used by the source, as an enumeration:
PAGE_NOACCESS, PAGE_READONLY, PAGE_READWRITE, PAGE_EXECUTE_READ,
PAGE_EXECUTE_READWRITE. -/
inductive WinProt where
  | noaccess
  | readonly
  | readwrite
  | execute_read
  | execute_readwrite
  deriving DecidableEq, Repr

/-- Whether a Windows protection constant grants read access. -/
def WinProt.grantsRead : WinProt → Bool
  | .noaccess => false
  | _ => true

/-- Whether a Windows protection constant grants write access. -/
def WinProt.grantsWrite : WinProt → Bool
  | .readwrite => true
  | .execute_readwrite => true
  | _ => false

/-- Whether a Windows protection constant grants execute access. -/
def WinProt.grantsExec : WinProt → Bool
  | .execute_read => true
  | .execute_readwrite => true
  | _ => false

/-- PageProtectionMode (common/General.h, visible here only through its use
in part_002): a triple of read / write / execute permission flags with
chainable accessors. -/
structure PageProtectionMode where
  m_read : Bool
  m_write : Bool
  m_exec : Bool
  deriving DecidableEq, Repr

def PageProtectionMode.CanRead (m : PageProtectionMode) : Bool := m.m_read

def PageProtectionMode.CanWrite (m : PageProtectionMode) : Bool := m.m_write

def PageProtectionMode.CanExecute (m : PageProtectionMode) : Bool := m.m_exec

/-- The Execute(bool) chainable setter of PageProtectionMode. -/
def PageProtectionMode.Execute (m : PageProtectionMode) (allow : Bool) :
    PageProtectionMode :=
  { m with m_exec := allow }

/-- ConvertToWinApi (part_002 lines 63-81): derives the Windows protection
constant from a PageProtectionMode.  Executable modes take priority, then
readable ones; anything else falls through to the PAGE_NOACCESS the local
variable was initialised with. -/
def ConvertToWinApi (mode : PageProtectionMode) : WinProt :=
  if mode.CanExecute then
    (if mode.CanWrite then .execute_readwrite else .execute_read)
  else if mode.CanRead then
    (if mode.CanWrite then .readwrite else .readonly)
  else
    .noaccess

/-- A requested permission triple is fully honoured by a Windows protection
constant when every flag set in the mode is granted by the constant. -/
def grantsAllRequested (mode : PageProtectionMode) (p : WinProt) : Bool :=
  (!mode.CanRead || p.grantsRead) &&
  (!mode.CanWrite || p.grantsWrite) &&
  (!mode.CanExecute || p.grantsExec)

/-- C2 counterexample: the write-only triple {readable := false,
writable := true, executable := false} is mapped to PAGE_NOACCESS, which does
not grant the requested write access — the mapping does drop a requested
permission. -/
theorem ConvertToWinApi_drops_write_only :
    PageProtectionMode.CanWrite ⟨false, true, false⟩ = true ∧
    ConvertToWinApi ⟨false, true, false⟩ = WinProt.noaccess ∧
    WinProt.grantsWrite (ConvertToWinApi ⟨false, true, false⟩) = false ∧
    grantsAllRequested ⟨false, true, false⟩ (ConvertToWinApi ⟨false, true, false⟩) = false := by
  decide

/-- C2 (amended): ConvertToWinApi honours every requested permission exactly
when the mode is readable, executable, or not writable; the only dropped
request is the write flag of the write-only triple, which maps to
PAGE_NOACCESS.  In particular the representative {read, write} request yields
a mode that still grants write. -/
theorem ConvertToWinApi_preserves_iff (mode : PageProtectionMode) :
    (grantsAllRequested mode (ConvertToWinApi mode) =
      (mode.CanRead || mode.CanExecute || !mode.CanWrite)) ∧
    WinProt.grantsWrite (ConvertToWinApi ⟨true, true, false⟩) = true ∧
    WinProt.grantsRead (ConvertToWinApi ⟨true, true, false⟩) = true := by
  rcases mode with ⟨r, w, x⟩
  cases r <;> cases w <;> cases x <;> exact ⟨rfl, rfl, rfl⟩

/-! ## Page-fault exception filters -/

/-- EXCEPTION_ACCESS_VIOLATION status code. -/
def EXCEPTION_ACCESS_VIOLATION : Nat := 0xC0000005

/-- EXCEPTION_CONTINUE_EXECUTION filter result (resume at the faulting
instruction). -/
def EXCEPTION_CONTINUE_EXECUTION : Int := -1

/-- EXCEPTION_CONTINUE_SEARCH filter result (pass the exception on to the
platform default handling). -/
def EXCEPTION_CONTINUE_SEARCH : Int := 0

/-- The fields of EXCEPTION_RECORD read by the filter: the exception code and
ExceptionInformation[1], the faulting address. -/
structure EXCEPTION_RECORD where
  ExceptionCode : Nat
  faultAddress : Nat

/-- Modelled from the spec: the process-wide fault dispatcher
(Source_PageFault, implemented in common/PageFaultSource.cpp which is not part
of this slice) invokes each registered listener in registration order with the
faulting address, stopping at the first that claims the fault; WasHandled then
reports whether some listener claimed it.  A listener is modelled as a
predicate on the faulting address. -/
def Dispatch (listeners : List (Nat → Bool)) (addr : Nat) : Bool :=
  listeners.any fun l => l addr

/-- DoSysPageFaultExceptionFilter (part_002 lines 25-36): a non
access-violation code is passed on immediately; otherwise the fault is
dispatched under the page-fault mutex and execution is resumed exactly when
the dispatcher reports the fault handled. -/
def DoSysPageFaultExceptionFilter (listeners : List (Nat → Bool))
    (er : EXCEPTION_RECORD) : Int :=
  if er.ExceptionCode ≠ EXCEPTION_ACCESS_VIOLATION then
    EXCEPTION_CONTINUE_SEARCH
  else if Dispatch listeners er.faultAddress then
    EXCEPTION_CONTINUE_EXECUTION
  else
    EXCEPTION_CONTINUE_SEARCH

/-- C3: the inner page-fault filter returns continue-execution exactly when
the exception is an access violation that the dispatcher reports as handled,
and in every other case it returns continue-search — there is no third
outcome. -/
theorem DoSysPageFaultExceptionFilter_spec (listeners : List (Nat → Bool))
    (er : EXCEPTION_RECORD) :
    (DoSysPageFaultExceptionFilter listeners er = EXCEPTION_CONTINUE_EXECUTION ↔
      er.ExceptionCode = EXCEPTION_ACCESS_VIOLATION ∧
        Dispatch listeners er.faultAddress = true) ∧
    (DoSysPageFaultExceptionFilter listeners er = EXCEPTION_CONTINUE_EXECUTION ∨
      DoSysPageFaultExceptionFilter listeners er = EXCEPTION_CONTINUE_SEARCH) := by
  unfold DoSysPageFaultExceptionFilter
  by_cases hc : er.ExceptionCode = EXCEPTION_ACCESS_VIOLATION
  · by_cases hd : Dispatch listeners er.faultAddress
    · simp [hc, hd]
    · simp [hc, hd, EXCEPTION_CONTINUE_EXECUTION, EXCEPTION_CONTINUE_SEARCH]
  · simp [hc, EXCEPTION_CONTINUE_EXECUTION, EXCEPTION_CONTINUE_SEARCH]

/-! ## Recursive-fault protection (C7)

The outer filters wrap the inner filter in a structured-exception-handling
block whose filter expression admits only access violations.  A run of the
inner filter is modelled by an optional fault code: none means the inner
filter returned normally, some c means the inner filter itself raised
exception code c before returning.  Each outer filter returns an optional
result (none meaning the new exception propagates past the handler) together
with the number of dispatcher invocations performed during the call. -/

/-- Number of dispatcher invocations a single run of the inner filter
performs: one when the incoming exception is an access violation (the
dispatch either completes or is where the recursive fault strikes), zero
otherwise. -/
def innerDispatchCount (er : EXCEPTION_RECORD) : Nat :=
  if er.ExceptionCode = EXCEPTION_ACCESS_VIOLATION then 1 else 0

/-- SysPageFaultExceptionFilter (part_002 lines 38-54): runs the inner filter
under a try block; a recursive access violation raised by the inner filter is
caught and turned into continue-search, any other exception raised by it
propagates (modelled as none).  The second component counts dispatcher
invocations. -/
def SysPageFaultExceptionFilter (listeners : List (Nat → Bool))
    (er : EXCEPTION_RECORD) (innerFault : Option Nat) : Option Int × Nat :=
  match innerFault with
  | none => (some (DoSysPageFaultExceptionFilter listeners er), innerDispatchCount er)
  | some c =>
      if c = EXCEPTION_ACCESS_VIOLATION then
        (some EXCEPTION_CONTINUE_SEARCH, innerDispatchCount er)
      else
        (none, innerDispatchCount er)

/-- EXCEPTION_DISPOSITION values returned by a frame exception handler. -/
inductive EXCEPTION_DISPOSITION where
  | ExceptionContinueExecution
  | ExceptionContinueSearch
  deriving DecidableEq, Repr

/-- UnwindExceptionHandler (part_002 lines 223-235): the UWP frame handler
runs the inner filter under a try block, maps continue-execution to
ExceptionContinueExecution and anything else to ExceptionContinueSearch; a
recursive access violation raised by the inner filter is caught and turned
into ExceptionContinueSearch, any other exception propagates. -/
def UnwindExceptionHandler (listeners : List (Nat → Bool))
    (er : EXCEPTION_RECORD) (innerFault : Option Nat) :
    Option EXCEPTION_DISPOSITION × Nat :=
  match innerFault with
  | none =>
      (some (if DoSysPageFaultExceptionFilter listeners er =
          EXCEPTION_CONTINUE_EXECUTION then
        EXCEPTION_DISPOSITION.ExceptionContinueExecution
      else
        EXCEPTION_DISPOSITION.ExceptionContinueSearch), innerDispatchCount er)
  | some c =>
      if c = EXCEPTION_ACCESS_VIOLATION then
        (some EXCEPTION_DISPOSITION.ExceptionContinueSearch, innerDispatchCount er)
      else
        (none, innerDispatchCount er)

/-- C7: a recursive access violation raised while the inner filter is
dispatching is caught by both outer filters and answered with continue-search
(respectively ExceptionContinueSearch) instead of being dispatched again: on
every run, including the recursive-fault runs, the dispatcher is entered at
most once. -/
theorem recursive_fault_not_redispatched (listeners : List (Nat → Bool))
    (er : EXCEPTION_RECORD) (innerFault : Option Nat) :
    (SysPageFaultExceptionFilter listeners er innerFault).2 ≤ 1 ∧
    (UnwindExceptionHandler listeners er innerFault).2 ≤ 1 ∧
    (SysPageFaultExceptionFilter listeners er
        (some EXCEPTION_ACCESS_VIOLATION)).1 = some EXCEPTION_CONTINUE_SEARCH ∧
    (UnwindExceptionHandler listeners er (some EXCEPTION_ACCESS_VIOLATION)).1 =
      some EXCEPTION_DISPOSITION.ExceptionContinueSearch := by
  refine ⟨?_, ?_, ?_, ?_⟩
  · rcases innerFault with _ | c
    · simp [SysPageFaultExceptionFilter, innerDispatchCount]
      split <;> simp
    · simp only [SysPageFaultExceptionFilter]
      split <;> simp [innerDispatchCount] <;> split <;> simp
  · rcases innerFault with _ | c
    · simp [UnwindExceptionHandler, innerDispatchCount]
      split <;> simp
    · simp only [UnwindExceptionHandler]
      split <;> simp [innerDispatchCount] <;> split <;> simp
  · simp [SysPageFaultExceptionFilter]
  · simp [UnwindExceptionHandler]

/-! ## Memory primitives

Platform calls are modelled as oracles in an environment record; a call trace
records what the function returned, how often the commit primitive was
invoked, which sleeps were performed, the protection left on the range (none
when no committed range remains) and whether the failure path attempted its
VirtualFree MEM_RELEASE call. -/

/-- The platform page size assumed by the source. -/
def __pagesize : Nat := 4096

/-- Windows error codes consulted by MmapCommitPtr. -/
def ERROR_NOT_ENOUGH_MEMORY : Nat := 8

def ERROR_OUTOFMEMORY : Nat := 14

def ERROR_COMMITMENT_MINIMUM : Nat := 635

/-- Oracle for a commit call: whether the VirtualAlloc commit succeeds,
whether the follow-up VirtualProtectFromApp succeeds (UWP executable path),
and the GetLastError value observed on failure. -/
structure CommitEnv where
  allocSucceeds : Bool
  protectSucceeds : Bool
  errcode : Nat
  deriving DecidableEq, Repr

/-- VirtualFree with MEM_RELEASE (platform contract): the entire allocation
is freed only when the size argument is 0; with a nonzero size the call fails
and frees nothing.  HostSys::Munmap (part_002 line 174) passes 0 accordingly,
while the UWP failure paths of MmapCommitPtr and Mmap (lines 104 and 161)
pass the caller's nonzero size. -/
def virtualFreeReleaseFreesAllocation (size : Nat) : Bool := size == 0

/-- Observable trace of one MmapCommitPtr call.  finalProt is the protection
of the committed range at exit (none when no committed range remains);
releaseAttempted records whether the failure path issued its VirtualFree
MEM_RELEASE call. -/
structure CommitTrace where
  returned : Bool
  allocCalls : Nat
  sleepsMs : List Nat
  initialProt : WinProt
  finalProt : Option WinProt
  releaseAttempted : Bool
  devAssertTripped : Bool
  deriving DecidableEq, Repr

/-- The sleeps performed by the shared failure tail of MmapCommitPtr (lines
109-124): a single Sleep(1000) when GetLastError is
ERROR_COMMITMENT_MINIMUM, none otherwise. -/
def commitFailSleeps (errcode : Nat) : List Nat :=
  if errcode = ERROR_COMMITMENT_MINIMUM then [1000] else []

/-- Whether the shared failure tail of MmapCommitPtr trips pxFailDev: only
for error codes other than the three recognised out-of-memory ones. -/
def commitFailDevAssert (errcode : Nat) : Bool :=
  !(errcode = ERROR_COMMITMENT_MINIMUM) &&
  !(errcode = ERROR_NOT_ENOUGH_MEMORY) && !(errcode = ERROR_OUTOFMEMORY)

/-- HostSys::MmapCommitPtr, non-UWP branch (part_002 lines 92-125 with the
first preprocessor arm): one VirtualAlloc MEM_COMMIT with the converted mode;
on success return true, on failure fall into the shared error tail and return
false. -/
def MmapCommitPtr_win32 (env : CommitEnv) (mode : PageProtectionMode) :
    CommitTrace :=
  if env.allocSucceeds then
    { returned := true, allocCalls := 1, sleepsMs := [],
      initialProt := ConvertToWinApi mode,
      finalProt := some (ConvertToWinApi mode),
      releaseAttempted := false, devAssertTripped := false }
  else
    { returned := false, allocCalls := 1,
      sleepsMs := commitFailSleeps env.errcode,
      initialProt := ConvertToWinApi mode, finalProt := none,
      releaseAttempted := false,
      devAssertTripped := commitFailDevAssert env.errcode }

/-- HostSys::MmapCommitPtr, UWP branch (part_002 lines 96-107 plus the shared
tail): commit with the execute flag stripped from the requested mode; if that
succeeds and the mode is executable, reprotect the whole range to
PAGE_EXECUTE_READWRITE.  When the reprotect fails the source calls
VirtualFree(base, size, MEM_RELEASE) and treats the call as failed — but the
size it passes is the caller's commit size, which is nonzero on every path
that reaches this call (a zero-size VirtualAlloc commit never succeeds), and
MEM_RELEASE with a nonzero size fails and frees nothing, so the committed
range remains behind at its stripped-execute protection. -/
def MmapCommitPtr_uwp (env : CommitEnv) (mode : PageProtectionMode) :
    CommitTrace :=
  if env.allocSucceeds then
    if mode.CanExecute then
      if env.protectSucceeds then
        { returned := true, allocCalls := 1, sleepsMs := [],
          initialProt := ConvertToWinApi (mode.Execute false),
          finalProt := some WinProt.execute_readwrite,
          releaseAttempted := false, devAssertTripped := false }
      else
        { returned := false, allocCalls := 1,
          sleepsMs := commitFailSleeps env.errcode,
          initialProt := ConvertToWinApi (mode.Execute false),
          finalProt := some (ConvertToWinApi (mode.Execute false)),
          releaseAttempted := true,
          devAssertTripped := commitFailDevAssert env.errcode }
    else
      { returned := true, allocCalls := 1, sleepsMs := [],
        initialProt := ConvertToWinApi (mode.Execute false),
        finalProt := some (ConvertToWinApi (mode.Execute false)),
        releaseAttempted := false, devAssertTripped := false }
  else
    { returned := false, allocCalls := 1,
      sleepsMs := commitFailSleeps env.errcode,
      initialProt := ConvertToWinApi (mode.Execute false), finalProt := none,
      releaseAttempted := false,
      devAssertTripped := commitFailDevAssert env.errcode }

/-- C6: on both branches a failing commit returns false to its immediate
caller, the commit primitive is invoked exactly once (no retry), and the
sleeps are exactly one Sleep(1000) when the failure is the transient
ERROR_COMMITMENT_MINIMUM and none on any other (firm) failure or on
success. -/
theorem MmapCommitPtr_failure_reporting (env : CommitEnv)
    (mode : PageProtectionMode) :
    ((MmapCommitPtr_win32 env mode).returned = false ↔
      env.allocSucceeds = false) ∧
    ((MmapCommitPtr_uwp env mode).returned = false ↔
      (env.allocSucceeds = false ∨
        (mode.CanExecute = true ∧ env.protectSucceeds = false))) ∧
    (MmapCommitPtr_win32 env mode).allocCalls = 1 ∧
    (MmapCommitPtr_uwp env mode).allocCalls = 1 ∧
    ((MmapCommitPtr_win32 env mode).sleepsMs =
      if (MmapCommitPtr_win32 env mode).returned = false ∧
          env.errcode = ERROR_COMMITMENT_MINIMUM then [1000] else []) ∧
    ((MmapCommitPtr_uwp env mode).sleepsMs =
      if (MmapCommitPtr_uwp env mode).returned = false ∧
          env.errcode = ERROR_COMMITMENT_MINIMUM then [1000] else []) := by
  rcases env with ⟨a, p, e⟩
  rcases mode with ⟨r, w, x⟩
  cases a <;> cases p <;> cases x <;>
    by_cases he : e = ERROR_COMMITMENT_MINIMUM <;>
      simp_all [MmapCommitPtr_win32, MmapCommitPtr_uwp, commitFailSleeps,
        PageProtectionMode.CanExecute]

/-- C9: on the UWP branch, any successful commit of an executable mode leaves
the range at PAGE_EXECUTE_READWRITE — write access is granted even when it was
not requested — while the initial commit itself was made with the execute flag
stripped (its protection grants no execute). -/
theorem MmapCommitPtr_uwp_exec_forces_rwx (env : CommitEnv)
    (mode : PageProtectionMode) (hx : mode.CanExecute = true)
    (ha : env.allocSucceeds = true) (hp : env.protectSucceeds = true) :
    (MmapCommitPtr_uwp env mode).returned = true ∧
    (MmapCommitPtr_uwp env mode).finalProt = some WinProt.execute_readwrite ∧
    WinProt.grantsWrite WinProt.execute_readwrite = true ∧
    WinProt.grantsExec (MmapCommitPtr_uwp env mode).initialProt = false := by
  have hfp : (MmapCommitPtr_uwp env mode).finalProt =
      some WinProt.execute_readwrite := by
    simp [MmapCommitPtr_uwp, ha, hx, hp]
  refine ⟨?_, hfp, rfl, ?_⟩
  · simp [MmapCommitPtr_uwp, ha, hx, hp]
  · have : (MmapCommitPtr_uwp env mode).initialProt =
        ConvertToWinApi (mode.Execute false) := by
      simp [MmapCommitPtr_uwp, ha, hx, hp]
    rw [this]
    rcases mode with ⟨r, w, x⟩
    cases r <;> cases w <;> rfl

/-- C9 witness: committing mode {read, no write, execute} with both platform
calls succeeding returns true, leaves PAGE_EXECUTE_READWRITE (which grants
write although write was not requested), and made the initial commit without
execute. -/
theorem MmapCommitPtr_uwp_exec_forces_rwx_witness :
    PageProtectionMode.CanWrite ⟨true, false, true⟩ = false ∧
    ((MmapCommitPtr_uwp ⟨true, true, 0⟩ ⟨true, false, true⟩).returned = true ∧
      (MmapCommitPtr_uwp ⟨true, true, 0⟩ ⟨true, false, true⟩).finalProt =
        some WinProt.execute_readwrite ∧
      WinProt.grantsWrite WinProt.execute_readwrite = true ∧
      WinProt.grantsExec
        (MmapCommitPtr_uwp ⟨true, true, 0⟩ ⟨true, false, true⟩).initialProt =
          false) :=
  ⟨rfl, MmapCommitPtr_uwp_exec_forces_rwx ⟨true, true, 0⟩ ⟨true, false, true⟩
    rfl rfl rfl⟩

/-- Oracle for one HostSys::Mmap call: the address VirtualAlloc or
VirtualAllocFromApp returns (none on failure) and whether the UWP follow-up
reprotect succeeds. -/
structure MmapEnv where
  allocResult : Option Nat
  protectSucceeds : Bool
  deriving DecidableEq, Repr

/-- Observable outcome of one HostSys::Mmap call: the returned address, the
protection of the allocation left behind (none when no allocation remains),
and whether the failure path issued its VirtualFree MEM_RELEASE call. -/
structure MmapTrace where
  result : Option Nat
  mem : Option WinProt
  releaseAttempted : Bool
  deriving DecidableEq, Repr

/-- HostSys::Mmap, non-UWP branch (part_002 lines 149-152): a single
VirtualAlloc MEM_RESERVE | MEM_COMMIT at PAGE_EXECUTE_READWRITE. -/
def Mmap_win32 (env : MmapEnv) : MmapTrace :=
  match env.allocResult with
  | none => { result := none, mem := none, releaseAttempted := false }
  | some a =>
      { result := some a, mem := some WinProt.execute_readwrite,
        releaseAttempted := false }

/-- HostSys::Mmap, UWP branch (part_002 lines 153-166): commit as
PAGE_READWRITE, then reprotect the result to PAGE_EXECUTE_READWRITE; when the
reprotect fails the source calls VirtualFree(result, size, MEM_RELEASE) and
returns null.  That call frees the allocation only when the size passed is 0
(the MEM_RELEASE contract, honoured by Munmap); the source passes the
caller's size, so for the nonzero sizes of real allocations the call fails
and the read-write allocation remains behind. -/
def Mmap_uwp (env : MmapEnv) (size : Nat) : MmapTrace :=
  match env.allocResult with
  | none => { result := none, mem := none, releaseAttempted := false }
  | some a =>
      if env.protectSucceeds then
        { result := some a, mem := some WinProt.execute_readwrite,
          releaseAttempted := false }
      else
        { result := none,
          mem := if virtualFreeReleaseFreesAllocation size then none
            else some WinProt.readwrite,
          releaseAttempted := true }

/-- C4 (code bug evidence): on the UWP branch, with a successful read-write
allocation of 4096 bytes at 0x10000 and a failing reprotect, Mmap returns
null and attempts the release, but VirtualFree receives MEM_RELEASE together
with the nonzero size 4096, which the platform rejects, so the read-write
allocation is left dangling instead of being released; the executable commit
path likewise reports failure while leaving the committed range behind at its
stripped-execute protection. -/
theorem Mmap_uwp_failure_leaks_allocation :
    virtualFreeReleaseFreesAllocation 4096 = false ∧
    (Mmap_uwp ⟨some 65536, false⟩ 4096).result = none ∧
    (Mmap_uwp ⟨some 65536, false⟩ 4096).releaseAttempted = true ∧
    (Mmap_uwp ⟨some 65536, false⟩ 4096).mem = some WinProt.readwrite ∧
    (MmapCommitPtr_uwp ⟨true, false, 8⟩ ⟨true, false, true⟩).returned =
      false ∧
    (MmapCommitPtr_uwp ⟨true, false, 8⟩ ⟨true, false, true⟩).releaseAttempted
      = true ∧
    (MmapCommitPtr_uwp ⟨true, false, 8⟩ ⟨true, false, true⟩).finalProt =
      some WinProt.readonly := by
  decide

/-- HostSys::Munmap (part_002 lines 169-175) over a model of the platform
allocation table (a list of base/size pairs in creation order): a null base
returns immediately; otherwise VirtualFree(base, 0, MEM_RELEASE) removes the
entire allocation registered at that base, the size argument being passed as
0 regardless of the size parameter. -/
def Munmap (base size : Nat) (allocs : List (Nat × Nat)) : List (Nat × Nat) :=
  if base = 0 then allocs
  else allocs.filter fun a => a.1 != base

/-- C10: releasing base 0 is a no-op, the size argument never affects the
result, and for a non-null base exactly the allocations registered at that
base disappear while every other allocation survives untouched. -/
theorem Munmap_spec (base s1 s2 : Nat) (allocs : List (Nat × Nat)) :
    Munmap 0 s1 allocs = allocs ∧
    Munmap base s1 allocs = Munmap base s2 allocs ∧
    ∀ a : Nat × Nat, a ∈ Munmap base s1 allocs ↔
      (a ∈ allocs ∧ (base = 0 ∨ a.1 ≠ base)) := by
  refine ⟨by simp [Munmap], rfl, fun a => ?_⟩
  by_cases hb : base = 0
  · simp [Munmap, hb]
  · simp [Munmap, hb, List.mem_filter]

/-- Oracle for reserve: the platform VirtualAlloc MEM_RESERVE answer as a
function of the requested base and size. -/
structure ReserveEnv where
  virtualAlloc : Nat → Nat → Option Nat

/-- Observable trace of one MmapReservePtr call: the value returned, whether
the platform call was made, and the exact arguments handed to it. -/
structure ReserveTrace where
  result : Option Nat
  platformCalled : Bool
  platformArgs : Nat × Nat

/-- HostSys::MmapReservePtr (part_002 lines 83-90): a single
VirtualAlloc/VirtualAllocFromApp MEM_RESERVE call with the caller's base and
size forwarded verbatim — no alignment check, no early failure. -/
def MmapReservePtr (env : ReserveEnv) (base size : Nat) : ReserveTrace :=
  { result := env.virtualAlloc base size,
    platformCalled := true,
    platformArgs := (base, size) }

/-- Oracle for MemProtect: whether VirtualProtect succeeds for the given
base, size and protection. -/
structure ProtectEnv where
  virtualProtect : Nat → Nat → WinProt → Bool

/-- Observable trace of one MemProtect call. -/
structure ProtectTrace where
  assertTripped : Bool
  platformCalled : Bool
  platformArgs : Nat × Nat × WinProt
  platformSucceeded : Bool
  devFailTripped : Bool

/-- HostSys::MemProtect (part_002 lines 177-192): pxAssert checks that size
is page-aligned (a debug-build diagnostic; execution continues either way),
then VirtualProtect is called with the unmodified arguments and the converted
mode; a platform failure only trips pxFailDev, nothing is returned to the
caller. -/
def MemProtect (env : ProtectEnv) (baseaddr size : Nat)
    (mode : PageProtectionMode) : ProtectTrace :=
  { assertTripped := !((size &&& (__pagesize - 1)) == 0),
    platformCalled := true,
    platformArgs := (baseaddr, size, ConvertToWinApi mode),
    platformSucceeded := env.virtualProtect baseaddr size (ConvertToWinApi mode),
    devFailTripped := !(env.virtualProtect baseaddr size (ConvertToWinApi mode)) }

/-- C5 counterexample: a reserve of the misaligned size 999 does not fail
with InvalidRange — it is forwarded to the platform unchanged and here
succeeds, and a MemProtect of the same misaligned size still issues the
platform protection call, so no operation rejects misaligned arguments. -/
theorem misaligned_args_not_rejected :
    (999 &&& (__pagesize - 1) ≠ 0) ∧
    (MmapReservePtr ⟨fun _ _ => some 65536⟩ 4096 999).result = some 65536 ∧
    (MmapReservePtr ⟨fun _ _ => some 65536⟩ 4096 999).platformCalled = true ∧
    (MemProtect ⟨fun _ _ _ => true⟩ 4096 999 ⟨true, true, false⟩).platformCalled
      = true ∧
    (MemProtect ⟨fun _ _ _ => true⟩ 4096 999 ⟨true, true, false⟩).assertTripped
      = true :=
  ⟨by decide, rfl, rfl, rfl, rfl⟩

/-- C5 (amended): neither operation validates page alignment or fails with
InvalidRange — MmapReservePtr always makes the platform call with the
caller's base and size forwarded verbatim and returns whatever the platform
answered, and MemProtect always makes the platform call with the original
arguments, the only alignment artefact being a debug assertion flag raised
exactly when the size is not page-aligned. -/
theorem arena_ops_never_validate_alignment (renv : ReserveEnv)
    (penv : ProtectEnv) (base size : Nat) (mode : PageProtectionMode) :
    (MmapReservePtr renv base size).platformCalled = true ∧
    (MmapReservePtr renv base size).platformArgs = (base, size) ∧
    (MmapReservePtr renv base size).result = renv.virtualAlloc base size ∧
    (MemProtect penv base size mode).platformCalled = true ∧
    (MemProtect penv base size mode).platformArgs =
      (base, size, ConvertToWinApi mode) ∧
    (MemProtect penv base size mode).assertTripped =
      !((size &&& (__pagesize - 1)) == 0) :=
  ⟨rfl, rfl, rfl, rfl, rfl, rfl⟩

/-! ## UWP unwind-handler registry (C1, C8)

The registry is the singly linked list rooted at s_handler_head and extended
at s_handler_tail; it is modelled as the list of entries reachable from the
head, in insertion order.  Only the fields the lookup callback reads are
kept per entry. -/

/-- The code range recorded in an UnwindHandler entry: code_base and
code_end, the half-open range of the JIT code the entry covers. -/
structure UnwindEntry where
  code_base : Nat
  code_end : Nat
  deriving DecidableEq, Repr

/-- Oracle for one UWPInstallExceptionHandlerForJIT call: whether
RtlInstallFunctionTableCallback succeeds and whether each of the four
VirtualProtectFromApp calls succeeds, in source order: new entry to RW,
previous tail to RW, previous tail back to RX, new entry to RX. -/
structure RegEnv where
  installTableSucceeds : Bool
  protectNewRW : Bool
  protectPrevRW : Bool
  protectPrevRX : Bool
  protectNewRX : Bool
  deriving DecidableEq, Repr

/-- UWPInstallExceptionHandlerForJIT (part_002 lines 248-338) on the x64
path, as a transformer of the reachable-entry list.  The failure returns
mirror the source: failures of the table-callback installation, of the RW
reprotect of the new entry, or of the RW reprotect of the previous tail
happen before the entry is linked; the RX reprotect of the previous tail and
the final RX reprotect of the new entry happen after next_unwind_handler of
the old tail (or s_handler_head) already points at the new entry, and the
source returns false without unlinking it. -/
def UWPInstallExceptionHandlerForJIT (env : RegEnv)
    (handlers : List UnwindEntry) (start_pc code_size : Nat) :
    Bool × List UnwindEntry :=
  if env.installTableSucceeds = false then (false, handlers)
  else if env.protectNewRW = false then (false, handlers)
  else if handlers = [] then
    (env.protectNewRX, [⟨start_pc, start_pc + code_size⟩])
  else if env.protectPrevRW = false then (false, handlers)
  else if env.protectPrevRX = false then
    (false, handlers ++ [⟨start_pc, start_pc + code_size⟩])
  else
    (env.protectNewRX, handlers ++ [⟨start_pc, start_pc + code_size⟩])

/-- C1 counterexample: with every platform call succeeding except the final
RX reprotect of the new entry, registration of the range [4096, 4352) into an
empty registry returns false yet leaves the new entry reachable — the
registry does not hold the same entries as before the failing call. -/
theorem UWPInstall_failure_leaves_entry_reachable :
    (UWPInstallExceptionHandlerForJIT ⟨true, true, true, true, false⟩ []
        4096 256).1 = false ∧
    (UWPInstallExceptionHandlerForJIT ⟨true, true, true, true, false⟩ []
        4096 256).2 = [⟨4096, 4352⟩] ∧
    (UWPInstallExceptionHandlerForJIT ⟨true, true, true, true, false⟩ []
        4096 256).2 ≠ ([] : List UnwindEntry) := by
  refine ⟨rfl, rfl, ?_⟩
  decide

/-- C1 (amended): a failure of the table-callback installation, of the RW
reprotect of the new entry, or of the RW reprotect of the previous tail
leaves the registry exactly as before the call; but once those have
succeeded the new entry is appended, and a subsequent failure (RX reprotect
of the previous tail, or final RX reprotect of the new entry) returns false
with the entry still reachable — the registry is never rolled back.  The
first conjunct characterises exactly when the entry ends up appended, the
second exactly when the call returns success. -/
theorem UWPInstall_registry_characterisation (env : RegEnv)
    (handlers : List UnwindEntry) (start_pc code_size : Nat) :
    ((UWPInstallExceptionHandlerForJIT env handlers start_pc code_size).2 =
        handlers ++ [⟨start_pc, start_pc + code_size⟩] ∨
      (UWPInstallExceptionHandlerForJIT env handlers start_pc code_size).2 =
        handlers) ∧
    ((UWPInstallExceptionHandlerForJIT env handlers start_pc code_size).2 =
        handlers ++ [⟨start_pc, start_pc + code_size⟩] ↔
      (env.installTableSucceeds && env.protectNewRW &&
        (handlers.isEmpty || env.protectPrevRW)) = true) ∧
    ((UWPInstallExceptionHandlerForJIT env handlers start_pc code_size).1 =
        true ↔
      (env.installTableSucceeds && env.protectNewRW &&
        (handlers.isEmpty || (env.protectPrevRW && env.protectPrevRX)) &&
        env.protectNewRX) = true) := by
  have hne : handlers ++ [(⟨start_pc, start_pc + code_size⟩ : UnwindEntry)] ≠
      handlers := by
    intro h
    have := congrArg List.length h
    simp at this
  rcases env with ⟨i, nrw, prw, prx, nrx⟩
  cases i <;> cases nrw <;> cases prw <;> cases prx <;> cases nrx <;>
    rcases handlers with _ | ⟨h0, hs⟩ <;>
      simp_all [UWPInstallExceptionHandlerForJIT]

/-- GetRuntimeFunctionCallback (part_002 lines 237-246) as a function of the
reachable-entry list: walk the chain from the head and return the first
entry whose half-open range [code_base, code_end) contains the control PC,
or none when the walk exhausts the chain. -/
def GetRuntimeFunctionCallback : List UnwindEntry → Nat → Option UnwindEntry
  | [], _ => none
  | h :: rest, pc =>
      if h.code_base ≤ pc ∧ pc < h.code_end then some h
      else GetRuntimeFunctionCallback rest pc

/-- C8: the lookup callback returns exactly the first entry, in insertion
order, whose half-open code range contains the queried address (the find-
first semantics), and returns none precisely when no registered entry
contains the address. -/
theorem GetRuntimeFunctionCallback_spec (handlers : List UnwindEntry)
    (pc : Nat) :
    GetRuntimeFunctionCallback handlers pc =
      handlers.find? (fun e => decide (e.code_base ≤ pc ∧ pc < e.code_end)) ∧
    (GetRuntimeFunctionCallback handlers pc = none ↔
      ∀ e ∈ handlers, ¬(e.code_base ≤ pc ∧ pc < e.code_end)) := by
  induction handlers with
  | nil => simp [GetRuntimeFunctionCallback]
  | cons h rest ih =>
      by_cases hc : h.code_base ≤ pc ∧ pc < h.code_end
      · simp [GetRuntimeFunctionCallback, hc, List.find?]
      · constructor
        · rw [show GetRuntimeFunctionCallback (h :: rest) pc =
              GetRuntimeFunctionCallback rest pc by
            simp [GetRuntimeFunctionCallback, hc]]
          rw [ih.1]
          simp [List.find?, hc]
        · rw [show GetRuntimeFunctionCallback (h :: rest) pc =
              GetRuntimeFunctionCallback rest pc by
            simp [GetRuntimeFunctionCallback, hc]]
          rw [ih.2]
          constructor
          · intro hall e he
            rcases List.mem_cons.mp he with rfl | hmem
            · exact hc
            · exact hall e hmem
          · intro hall e he
            exact hall e (List.mem_cons_of_mem h he)

end XBSX2
